import Mathlib

/-!
Shallow embedding of the Reminder Scheduling & Delivery Engine of the
High-Five repository (src/src/services/reminder_service.py,
src/src/services/scheduler.py, src/src/services/redis_service.py and
src/src/models/reminder_models.py), together with theorems settling the
frozen claims about it.

Conventions of the embedding:
  * wall-clock time (datetime.now) is an explicit integer parameter `now`
    (Unix seconds); every call of datetime.now inside one Python function
    body is collapsed to that one value;
  * the database is the returned record: each Python method that mutates a
    reminder and saves it is a pure function from the found record to the
    updated record (the not-found early returns, which mutate nothing, are
    outside the per-record functions and noted in the doc comments);
  * the Redis backend is a `QueueState` / `LockState` value plus an `avail`
    flag: when `avail` is false every Redis client call raises, which the
    embedding renders as the `Except.error` / empty-result branch the
    surrounding `try/except` of the Python code produces;
  * outcomes of the external telephony sends are abstract `SendResult`
    parameters (the Twilio client is an external collaborator).
-/

namespace HighFive

/-- ReminderStatus enum of reminder_models.py (pending, scheduled, sent,
delivered, failed, cancelled, retry). -/
inductive ReminderStatus
  | pending
  | scheduled
  | sent
  | delivered
  | failed
  | cancelled
  | retry
  deriving DecidableEq, Repr

/-- DeliveryMethod enum of reminder_models.py. -/
inductive DeliveryMethod
  | sms
  | voice
  | both
  deriving DecidableEq, Repr

/-- Priority enum of reminder_models.py. -/
inductive Priority
  | low
  | normal
  | high
  | urgent
  deriving DecidableEq, Repr

/-- ReminderData dataclass of reminder_models.py. Timestamps are integers
(Unix seconds); the opaque metadata bag is omitted: no operation embedded
here reads or writes it except the update merge, which never touches the
fields the claims are about. `retry_count`, `max_retries`, `retry_interval`
are the retry bookkeeping fields. -/
structure ReminderData where
  id : Nat := 0
  patient_id : Nat := 0
  reminder_type : String := ""
  delivery_method : DeliveryMethod := DeliveryMethod.sms
  status : ReminderStatus := ReminderStatus.pending
  scheduled_time : Int := 0
  priority : Priority := Priority.normal
  custom_message : Option String := none
  created_at : Int := 0
  updated_at : Int := 0
  sent_at : Option Int := none
  delivered_at : Option Int := none
  retry_count : Nat := 0
  max_retries : Nat := 3
  retry_interval : Nat := 300
  twilio_sid : Option String := none
  error_message : Option String := none
  deriving DecidableEq, Repr

/-- ReminderCreate request model of reminder_models.py (pydantic validation:
max_retries between 0 and 10, retry_interval at least 60; validation is a
hypothesis where a theorem needs it). -/
structure ReminderCreate where
  patient_id : Nat
  reminder_type : String
  delivery_method : DeliveryMethod := DeliveryMethod.sms
  scheduled_time : Int
  priority : Priority := Priority.normal
  custom_message : Option String := none
  max_retries : Nat := 3
  retry_interval : Nat := 300
  deriving DecidableEq, Repr

/-- ReminderUpdate request model of reminder_models.py: every field optional. -/
structure ReminderUpdate where
  scheduled_time : Option Int := none
  priority : Option Priority := none
  custom_message : Option String := none
  max_retries : Option Nat := none
  retry_interval : Option Nat := none
  deriving DecidableEq, Repr

/-- ReminderService.create_reminder (reminder_service.py lines 59 to 87): the
ReminderData built from the create request (patient existence checked before,
id assigned by the store). Status gets the dataclass default `pending` and
`retry_count` the default 0. -/
def create_reminder (c : ReminderCreate) (rid : Nat) (now : Int) : ReminderData :=
  { id := rid
    patient_id := c.patient_id
    reminder_type := c.reminder_type
    delivery_method := c.delivery_method
    scheduled_time := c.scheduled_time
    priority := c.priority
    custom_message := c.custom_message
    max_retries := c.max_retries
    retry_interval := c.retry_interval
    created_at := now
    updated_at := now }

/-- Field-by-field application of a ReminderUpdate, in the order of
ReminderService.update_reminder lines 100 to 111 (Python tests each field
for presence; the enum and datetime truthiness tests equal presence). -/
def applyUpdate (u : ReminderUpdate) (r : ReminderData) : ReminderData :=
  let r1 := match u.scheduled_time with
    | some t => { r with scheduled_time := t }
    | none => r
  let r2 := match u.priority with
    | some p => { r1 with priority := p }
    | none => r1
  let r3 := match u.custom_message with
    | some m => { r2 with custom_message := some m }
    | none => r2
  let r4 := match u.max_retries with
    | some m => { r3 with max_retries := m }
    | none => r3
  match u.retry_interval with
  | some i => { r4 with retry_interval := i }
  | none => r4

/-- ReminderService.update_reminder (reminder_service.py lines 89 to 123) on a
found reminder: raises (here `Except.error`) when the status is SENT,
DELIVERED or CANCELLED, otherwise applies the patch and stamps updated_at. -/
def update_reminder (now : Int) (r : ReminderData) (u : ReminderUpdate) :
    Except String ReminderData :=
  if r.status = ReminderStatus.sent ∨ r.status = ReminderStatus.delivered ∨
      r.status = ReminderStatus.cancelled then
    Except.error ("impossible de modifier un rappel avec ce statut")
  else
    Except.ok { applyUpdate u r with updated_at := now }

/-- ReminderService.cancel_reminder (reminder_service.py lines 125 to 142) on a
found reminder: raises (here `Except.error`) exactly when the status is SENT
or DELIVERED; otherwise marks the reminder CANCELLED. -/
def cancel_reminder (now : Int) (r : ReminderData) : Except String ReminderData :=
  if r.status = ReminderStatus.sent ∨ r.status = ReminderStatus.delivered then
    Except.error ("impossible annuler un rappel deja envoye")
  else
    Except.ok { r with status := ReminderStatus.cancelled, updated_at := now }

/-- ReminderService._schedule_retry (reminder_service.py lines 309 to 318):
increment retry_count, set status RETRY and push scheduled_time forward by
retry_interval (then save and re-enqueue). -/
def schedule_retry (now : Int) (r : ReminderData) : ReminderData :=
  { r with
    retry_count := r.retry_count + 1
    status := ReminderStatus.retry
    scheduled_time := now + (r.retry_interval : Int) }

/-- Python str.lower character by character (extensionally the standard
String.toLower, written by structural recursion over the character list so
that proofs can evaluate it). -/
def toLowerStr (s : String) : String :=
  String.mk (s.data.map Char.toLower)

/-- The Twilio status vocabulary mapping of
ReminderService.update_delivery_status lines 228 to 235: lower-cased provider
status to internal status, `none` when the provider status is unknown (the
Python dict lookup then defaults to the current status of the reminder). -/
def statusMapping (s : String) : Option ReminderStatus :=
  if toLowerStr s = "delivered" then some ReminderStatus.delivered
  else if toLowerStr s = "sent" then some ReminderStatus.sent
  else if toLowerStr s = "failed" then some ReminderStatus.failed
  else if toLowerStr s = "undelivered" then some ReminderStatus.failed
  else none

/-- Python `error_message or fallback`: the fallback also replaces an empty
string, which Python treats as false. -/
def orDefault (s : Option String) (d : String) : String :=
  match s with
  | some t => if t = "" then d else t
  | none => d

/-- The f-string `Erreur Twilio: {error_code}` of line 244 (Python renders a
missing code as the text None). -/
def twilioError (error_code : Option String) : String :=
  "Erreur Twilio: " ++ (match error_code with
    | some c => c
    | none => "None")

/-- ReminderService.update_delivery_status (reminder_service.py lines 218 to
252) on the reminder found by its Twilio SID (when no reminder carries the
SID the Python method returns False and mutates nothing). Returns the saved
record and the Boolean result, which is True on every found-reminder path.
When the mapped status differs from the current one the record is updated;
a mapped FAILED with retry budget left goes through _schedule_retry. -/
def update_delivery_status (now : Int) (r : ReminderData) (status : String)
    (error_code : Option String) (error_message : Option String) :
    ReminderData × Bool :=
  let new_status := (statusMapping status).getD r.status
  if new_status = r.status then (r, true)
  else
    let r1 : ReminderData := { r with status := new_status, updated_at := now }
    if new_status = ReminderStatus.delivered then
      ({ r1 with delivered_at := some now }, true)
    else if new_status = ReminderStatus.failed then
      let r2 : ReminderData :=
        { r1 with error_message := some (orDefault error_message (twilioError error_code)) }
      if r2.retry_count < r2.max_retries then (schedule_retry now r2, true)
      else (r2, true)
    else (r1, true)

/-- Outcome of one external telephony send (communication_service.py
send_sms / make_voice_call): a SID on success, an optional error text on
failure (the exception path of the send helpers is an `err` with the
exception text). -/
inductive SendResult
  | ok (sid : String)
  | err (error : Option String)
  deriving DecidableEq, Repr

/-- ReminderService._send_sms_reminder (lines 454 to 481), with the telephony
outcome abstract: on success the reminder keeps the message SID, on failure
error_message records the error (or the default unknown-error text). -/
def send_sms_reminder (r : ReminderData) (res : SendResult) : ReminderData × Bool :=
  match res with
  | SendResult.ok sid => ({ r with twilio_sid := some sid }, true)
  | SendResult.err e => ({ r with error_message := some (orDefault e ("Erreur inconnue")) }, false)

/-- ReminderService._send_voice_reminder (lines 483 to 512): same shape as the
SMS path, the call SID lands in the same twilio_sid field. -/
def send_voice_reminder (r : ReminderData) (res : SendResult) : ReminderData × Bool :=
  match res with
  | SendResult.ok sid => ({ r with twilio_sid := some sid }, true)
  | SendResult.err e => ({ r with error_message := some (orDefault e ("Erreur inconnue")) }, false)

/-- ReminderService._process_reminder (reminder_service.py lines 408 to 452)
with the patient found and the telephony outcomes abstract: mark the record
PENDING, dispatch per delivery_method (for BOTH the voice send runs even when
the SMS send failed, and overall success is the conjunction), then on success
SENT with sent_at, on failure FAILED and, when retry budget remains,
_schedule_retry (leaving the record in RETRY). -/
def process_reminder (now : Int) (r : ReminderData) (smsRes voiceRes : SendResult) :
    ReminderData :=
  let r0 : ReminderData := { r with status := ReminderStatus.pending }
  let step : ReminderData × Bool :=
    match r0.delivery_method with
    | DeliveryMethod.sms => send_sms_reminder r0 smsRes
    | DeliveryMethod.voice => send_voice_reminder r0 voiceRes
    | DeliveryMethod.both =>
      let s := send_sms_reminder r0 smsRes
      let v := send_voice_reminder s.1 voiceRes
      (v.1, s.2 && v.2)
  let r2 : ReminderData :=
    if step.2 then { step.1 with status := ReminderStatus.sent, sent_at := some now }
    else
      let rf : ReminderData := { step.1 with status := ReminderStatus.failed }
      if rf.retry_count < rf.max_retries then schedule_retry now rf else rf
  { r2 with updated_at := now }

/-- SchedulerConfig of config_api.py restricted to the field the retry policy
reads; the default ladder is [300, 900, 1800]. -/
structure SchedulerConfig where
  retry_delays : List Nat := [300, 900, 1800]
  deriving DecidableEq, Repr

/-- ReminderScheduler._calculate_retry_delay (scheduler.py lines 230 to 237):
the ladder entry for attempts inside the ladder, then exponential growth of
the last ladder entry capped at 3600 seconds. For retry_count 0 the Python
index -1 selects the last entry; every call site passes at least 1. -/
def calculate_retry_delay (cfg : SchedulerConfig) (retry_count : Nat) : Nat :=
  if retry_count ≤ cfg.retry_delays.length then
    if retry_count = 0 then cfg.retry_delays.getLastD 0
    else cfg.retry_delays.getD (retry_count - 1) 0
  else
    Nat.min (cfg.retry_delays.getLastD 0 * 2 ^ (retry_count - cfg.retry_delays.length)) 3600

/-- ReminderScheduler._handle_failed_reminder (scheduler.py lines 197 to 228):
increment retry_count and overwrite error_message; with retry_count still
below max_retries the reminder goes to RETRY and is enqueued with the
computed delay (the second component), otherwise it is marked FAILED and not
enqueued (`none`). The store update and retry-queue insertion are the
returned record and delay. -/
def handle_failed_reminder (cfg : SchedulerConfig) (r : ReminderData)
    (error_message : Option String) : ReminderData × Option Nat :=
  let r1 : ReminderData :=
    { r with retry_count := r.retry_count + 1, error_message := error_message }
  if r1.retry_count < r1.max_retries then
    ({ r1 with status := ReminderStatus.retry }, some (calculate_retry_delay cfg r1.retry_count))
  else
    ({ r1 with status := ReminderStatus.failed }, none)

/-- The outcome of `n` consecutive dispatch failures of one reminder: the
final record and, per failure, the retry delay it was re-enqueued with
(`none` when that failure marked it FAILED instead). -/
def failN (cfg : SchedulerConfig) (r : ReminderData) : Nat → ReminderData × List (Option Nat)
  | 0 => (r, [])
  | n + 1 =>
    let prev := failN cfg r n
    let step := handle_failed_reminder cfg prev.1 none
    (step.1, prev.2 ++ [step.2])

/-- The four Redis queues of redis_service.py as values: the scheduled and
retry sorted sets hold (payload, score) pairs, the immediate list is a plain
list with its head at the Redis list head (lpush pushes the head, rpop pops
the tail). Entries are the deserialized reminder payloads. -/
structure QueueState where
  scheduled : List (ReminderData × Int) := []
  retryq : List (ReminderData × Int) := []
  immediate : List ReminderData := []
  deriving DecidableEq, Repr

/-- True exactly on the error branch of an `Except`. -/
def isError {α : Type} : Except String α → Bool
  | Except.error _ => true
  | Except.ok _ => false

/-- RedisService.enqueue_scheduled_reminder (redis_service.py lines 59 to 77):
with a positive delay the entry goes into the scheduled sorted set scored by
now plus the delay, otherwise lpush onto the immediate list. When the backing
store is unreachable (`avail` false) the Redis call raises and the except
clause of the method logs and re-raises, rendered here as `Except.error`. -/
def enqueue_scheduled_reminder (avail : Bool) (q : QueueState) (now : Int)
    (r : ReminderData) (delay_seconds : Int) : Except String QueueState :=
  if avail then
    if delay_seconds > 0 then
      Except.ok { q with scheduled := q.scheduled ++ [(r, now + delay_seconds)] }
    else
      Except.ok { q with immediate := r :: q.immediate }
  else
    Except.error ("redis unreachable")

/-- RedisService.enqueue_retry_reminder (redis_service.py lines 83 to 95):
into the retry sorted set scored by now plus the retry delay; on an
unreachable backing store the except clause re-raises. -/
def enqueue_retry_reminder (avail : Bool) (q : QueueState) (now : Int)
    (r : ReminderData) (retry_delay : Int) : Except String QueueState :=
  if avail then
    Except.ok { q with retryq := q.retryq ++ [(r, now + retry_delay)] }
  else
    Except.error ("redis unreachable")

/-- The due entries a zrangebyscore from 0 to now with a count limit returns:
entries with score between 0 and now, up to `limit` of them. -/
def dueTake (l : List (ReminderData × Int)) (now : Int) (limit : Nat) :
    List (ReminderData × Int) :=
  (l.filter (fun p => decide (0 ≤ p.2) && decide (p.2 ≤ now))).take limit

/-- RedisService.get_due_scheduled_reminders (redis_service.py lines 97 to
130): pop up to `limit` due entries from the scheduled set; on an unreachable
backing store the except clause returns the empty list (a soft failure). -/
def get_due_scheduled_reminders (avail : Bool) (q : QueueState) (now : Int)
    (limit : Nat) : List ReminderData × QueueState :=
  if avail then
    let due := dueTake q.scheduled now limit
    (due.map Prod.fst,
      { q with scheduled := q.scheduled.filter (fun p => !(decide (p ∈ due))) })
  else
    ([], q)

/-- RedisService.get_due_retry_reminders (redis_service.py lines 132 to 164):
same as the scheduled dequeue, over the retry set. -/
def get_due_retry_reminders (avail : Bool) (q : QueueState) (now : Int)
    (limit : Nat) : List ReminderData × QueueState :=
  if avail then
    let due := dueTake q.retryq now limit
    (due.map Prod.fst,
      { q with retryq := q.retryq.filter (fun p => !(decide (p ∈ due))) })
  else
    ([], q)

/-- RedisService.get_immediate_reminders (redis_service.py lines 166 to 186):
rpop up to min(limit, length) entries off the tail of the immediate list; on
an unreachable backing store the except clause returns the empty list. -/
def get_immediate_reminders (avail : Bool) (q : QueueState) (limit : Nat) :
    List ReminderData × QueueState :=
  if avail then
    let n := Nat.min limit q.immediate.length
    ((q.immediate.reverse).take n,
      { q with immediate := ((q.immediate.reverse).drop n).reverse })
  else
    ([], q)

/-- The named distributed locks of redis_service.py as a key-value table
(`locks:name` to the stored identifier); the TTL expiry is real time and
outside this embedding, no claim settled here depends on it. -/
structure LockState where
  locks : List (String × String) := []
  deriving DecidableEq, Repr

/-- RedisService.acquire_lock (redis_service.py lines 298 to 314): SET NX of
`locks:name` to a fresh identifier; true exactly when the key was absent. -/
def acquire_lock (st : LockState) (lock_name : String) (identifier : String) :
    LockState × Bool :=
  let key := "locks:" ++ lock_name
  match st.locks.lookup key with
  | some _ => (st, false)
  | none => ({ locks := (key, identifier) :: st.locks }, true)

/-- RedisService.release_lock (redis_service.py lines 316 to 323): DEL of
`locks:name`, unconditionally; true exactly when the key existed. The stored
identifier is never read. -/
def release_lock (st : LockState) (lock_name : String) : LockState × Bool :=
  let key := "locks:" ++ lock_name
  ({ locks := st.locks.filter (fun p => !(decide (p.1 = key))) },
    (st.locks.lookup key).isSome)

/-- The terminal statuses named by the spec invariant: SENT, DELIVERED,
CANCELLED, FAILED. -/
def isTerminal : ReminderStatus → Bool
  | ReminderStatus.sent => true
  | ReminderStatus.delivered => true
  | ReminderStatus.cancelled => true
  | ReminderStatus.failed => true
  | _ => false

/-- The retry bookkeeping invariant of the spec: retry_count never exceeds
max_retries (the lower bound 0 is the Nat type). -/
def retryInvariant (r : ReminderData) : Prop :=
  r.retry_count ≤ r.max_retries

instance (r : ReminderData) : Decidable (retryInvariant r) :=
  inferInstanceAs (Decidable (r.retry_count ≤ r.max_retries))

/-- A typical live reminder: fresh bookkeeping, pending status (the dataclass
defaults). -/
def sampleReminder : ReminderData := { id := 1, patient_id := 1 }

/-- A reminder already in the FAILED state. -/
def sampleFailed : ReminderData := { status := ReminderStatus.failed }

/-- A reminder already confirmed DELIVERED, with retry budget left. -/
def sampleDelivered : ReminderData :=
  { status := ReminderStatus.delivered, retry_count := 0, max_retries := 3 }

/-- A reminder in SENT state with retry budget left. -/
def sampleSent : ReminderData :=
  { status := ReminderStatus.sent, retry_count := 0, max_retries := 3 }

/-- A scheduled reminder given max_retries = 4, the configuration of the
four-failures scenario of the spec. -/
def sampleFourRetries : ReminderData :=
  { status := ReminderStatus.scheduled, max_retries := 4 }

/-- A scheduled reminder with delivery_method BOTH and retry budget left. -/
def sampleBoth : ReminderData :=
  { delivery_method := DeliveryMethod.both, status := ReminderStatus.scheduled,
    retry_count := 0, max_retries := 3 }

/-- A typical create request. -/
def sampleCreate : ReminderCreate :=
  { patient_id := 1, reminder_type := "medication_reminder", scheduled_time := 1000 }

/-- A lock table holding the scheduler lock for the acquirer that stored
identifier 111. -/
def lockHeld : LockState := { locks := [("locks:scheduler", "111")] }

end HighFive

namespace HighFive

/-! ## Helper lemmas -/

/-- The Twilio status mapping takes only four values: none (unknown provider
status), DELIVERED, SENT or FAILED. -/
theorem statusMapping_cases (s : String) :
    statusMapping s = none ∨ statusMapping s = some ReminderStatus.delivered ∨
      statusMapping s = some ReminderStatus.sent ∨
      statusMapping s = some ReminderStatus.failed := by
  unfold statusMapping
  split_ifs <;> simp

/-! ## Claim C1: terminal statuses under the delivery webhook -/

/-- Claim C1 counterexample: a DELIVERED reminder with retry budget left that
receives a failed delivery callback is moved to RETRY, a non-terminal status,
by update_delivery_status — the webhook does regress it out of the terminal
set. -/
theorem C1_counterexample :
    sampleDelivered.status = ReminderStatus.delivered ∧
    (update_delivery_status 100 sampleDelivered ("failed") none none).1.status =
      ReminderStatus.retry ∧
    isTerminal
      ((update_delivery_status 100 sampleDelivered ("failed") none none).1.status) = false := by
  refine ⟨rfl, by decide, by decide⟩

/-- Claim C1 (amended): update_delivery_status keeps a FAILED reminder inside
the terminal set {SENT, DELIVERED, CANCELLED, FAILED} for every callback, and
keeps a DELIVERED reminder inside it unless the callback maps to FAILED while
retry budget remains, in which case the reminder leaves the terminal set (it
becomes RETRY). -/
theorem C1_terminal_amended (now : Int) (r : ReminderData) (ps : String)
    (ec em : Option String)
    (h : r.status = ReminderStatus.failed ∨
      (r.status = ReminderStatus.delivered ∧
        (statusMapping ps ≠ some ReminderStatus.failed ∨ r.max_retries ≤ r.retry_count))) :
    isTerminal ((update_delivery_status now r ps ec em).1.status) = true := by
  rcases h with hf | ⟨hd, hx⟩
  · rcases statusMapping_cases ps with hm | hm | hm | hm <;>
      simp [update_delivery_status, hm, hf, isTerminal, schedule_retry]
  · rcases statusMapping_cases ps with hm | hm | hm | hm
    · simp [update_delivery_status, hm, hd, isTerminal]
    · simp [update_delivery_status, hm, hd, isTerminal]
    · simp [update_delivery_status, hm, hd, isTerminal]
    · rcases hx with hx | hx
      · exact absurd hm hx
      · have hnot : ¬ r.retry_count < r.max_retries := Nat.not_lt.mpr hx
        simp [update_delivery_status, hm, hd, hnot, isTerminal]

/-- Claim C1 witness: a concrete FAILED reminder receiving a delivered
callback stays in the terminal set. -/
theorem C1_witness :
    isTerminal ((update_delivery_status 7 sampleFailed ("delivered") none none).1.status) = true :=
  C1_terminal_amended 7 sampleFailed ("delivered") none none (Or.inl rfl)

/-! ## Claim C4: when cancel succeeds -/

/-- Claim C4 counterexample: cancel of a FAILED reminder succeeds (the code
only rejects SENT and DELIVERED), although the claim requires an
InvalidStateError for every status outside {PENDING, SCHEDULED, RETRY}. -/
theorem C4_counterexample :
    sampleFailed.status = ReminderStatus.failed ∧
    isError (cancel_reminder 0 sampleFailed) = false ∧
    cancel_reminder 0 sampleFailed =
      Except.ok { sampleFailed with status := ReminderStatus.cancelled, updated_at := 0 } := by
  refine ⟨rfl, rfl, rfl⟩

/-- Claim C4 (amended): cancel_reminder fails exactly when the status is SENT
or DELIVERED; from every other status (PENDING, SCHEDULED, RETRY, but also
FAILED and CANCELLED) it succeeds and marks the reminder CANCELLED, and on
the error path no updated record is produced. -/
theorem C4_cancel_amended (now : Int) (r : ReminderData) :
    (isError (cancel_reminder now r) = true ↔
      (r.status = ReminderStatus.sent ∨ r.status = ReminderStatus.delivered)) ∧
    (¬ (r.status = ReminderStatus.sent ∨ r.status = ReminderStatus.delivered) →
      cancel_reminder now r =
        Except.ok { r with status := ReminderStatus.cancelled, updated_at := now }) ∧
    ((r.status = ReminderStatus.sent ∨ r.status = ReminderStatus.delivered) →
      ∀ r2, cancel_reminder now r ≠ Except.ok r2) := by
  unfold cancel_reminder isError
  split_ifs with h <;> simp [h]

/-! ## Claim C10: unknown provider statuses are a no-op -/

/-- Claim C10: a delivery callback whose provider status is (case
insensitively) none of delivered, sent, failed, undelivered leaves the found
reminder completely unchanged and still reports success. -/
theorem C10_unknown_noop (now : Int) (r : ReminderData) (ps : String)
    (ec em : Option String)
    (h1 : toLowerStr ps ≠ "delivered") (h2 : toLowerStr ps ≠ "sent")
    (h3 : toLowerStr ps ≠ "failed") (h4 : toLowerStr ps ≠ "undelivered") :
    update_delivery_status now r ps ec em = (r, true) := by
  have hm : statusMapping ps = none := by
    unfold statusMapping
    split_ifs <;> simp_all
  simp [update_delivery_status, hm]

/-- Claim C10 witness: the provider status queued is unknown and leaves a
concrete reminder untouched. -/
theorem C10_witness :
    update_delivery_status 3 sampleReminder ("queued") none none = (sampleReminder, true) :=
  C10_unknown_noop 3 sampleReminder ("queued") none none (by decide) (by decide)
    (by decide) (by decide)

end HighFive

namespace HighFive

/-! ## Claim C2: the retry bookkeeping invariant -/

/-- The update merge never touches retry_count. -/
theorem applyUpdate_retry_count (u : ReminderUpdate) (r : ReminderData) :
    (applyUpdate u r).retry_count = r.retry_count := by
  unfold applyUpdate
  cases u.scheduled_time <;> cases u.priority <;> cases u.custom_message <;>
    cases u.max_retries <;> cases u.retry_interval <;> rfl

/-- The update merge replaces max_retries exactly when the patch carries one. -/
theorem applyUpdate_max_retries (u : ReminderUpdate) (r : ReminderData) :
    (applyUpdate u r).max_retries = u.max_retries.getD r.max_retries := by
  unfold applyUpdate
  cases u.scheduled_time <;> cases u.priority <;> cases u.custom_message <;>
    cases u.max_retries <;> cases u.retry_interval <;> rfl

/-- Claim C2 counterexample: a freshly created reminder with max_retries = 0
(a value the create validation allows) satisfies the invariant, yet its first
dispatch failure pushes retry_count to 1 > 0: the scheduler failure handler
increments before it compares, so exhausting the budget overshoots it. -/
theorem C2_counterexample :
    retryInvariant ({ max_retries := 0 } : ReminderData) ∧
    ¬ retryInvariant ((handle_failed_reminder {} ({ max_retries := 0 } : ReminderData) none).1) := by
  exact ⟨by decide, by decide⟩

/-- Claim C2 (amended): `0 ≤ retry_count ≤ max_retries` holds at creation and
is preserved by the scheduler failure handler, by the webhook retry path and
by update_reminder — provided the reminder still has retry budget
(retry_count < max_retries) when a failure is handled, and provided an update
never lowers max_retries below the current retry_count. Without these
provisos the code breaks the invariant (see the counterexample). -/
theorem C2_invariant_amended (cfg : SchedulerConfig) (c : ReminderCreate) (rid : Nat)
    (now : Int) (r r2 : ReminderData) (u : ReminderUpdate) (em : Option String)
    (h1 : r.retry_count < r.max_retries)
    (h2 : ∀ m, u.max_retries = some m → r.retry_count ≤ m)
    (h3 : update_reminder now r u = Except.ok r2) :
    retryInvariant (create_reminder c rid now) ∧
    retryInvariant ((handle_failed_reminder cfg r em).1) ∧
    retryInvariant (schedule_retry now r) ∧
    retryInvariant r2 := by
  refine ⟨?_, ?_, ?_, ?_⟩
  · simp [create_reminder, retryInvariant]
  · unfold handle_failed_reminder
    dsimp only
    split_ifs <;> simp [retryInvariant] <;> omega
  · simp [schedule_retry, retryInvariant]
    omega
  · unfold update_reminder at h3
    split_ifs at h3
    injection h3 with h
    subst h
    have hiff : retryInvariant { applyUpdate u r with updated_at := now } ↔
        (applyUpdate u r).retry_count ≤ (applyUpdate u r).max_retries := Iff.rfl
    rw [hiff, applyUpdate_retry_count, applyUpdate_max_retries]
    cases hu : u.max_retries with
    | none => exact Nat.le_of_lt h1
    | some m => simpa using h2 m hu

/-- Claim C2 witness: the amended invariant at a fresh reminder (budget 3,
count 0) under the default scheduler configuration and an empty patch. -/
theorem C2_witness :
    retryInvariant (create_reminder sampleCreate 1 0) ∧
    retryInvariant ((handle_failed_reminder {} sampleReminder none).1) ∧
    retryInvariant (schedule_retry 0 sampleReminder) ∧
    retryInvariant { sampleReminder with updated_at := 0 } :=
  C2_invariant_amended {} sampleCreate 1 0 sampleReminder
    { sampleReminder with updated_at := 0 } {} none (by decide)
    (fun m hm => Option.noConfusion hm) rfl

/-! ## Claim C3: the four-failures scenario -/

/-- Claim C3 counterexample: with max_retries = 4 and the default ladder,
four consecutive failures do NOT produce the delay sequence
300, 900, 1800, 3600 — the fourth failure enqueues nothing (the reminder is
marked FAILED instead of being retried at 3600 seconds). -/
theorem C3_counterexample :
    (failN {} sampleFourRetries 4).2 ≠ [some 300, some 900, some 1800, some 3600] ∧
    (failN {} sampleFourRetries 4).2.getD 3 none = none := by
  exact ⟨by decide, by decide⟩

/-- Claim C3 (amended): with retry_delays = [300, 900, 1800] and
max_retries = 4, failures one to three re-enqueue the reminder with delays
300, 900 and 1800 seconds (leaving it in RETRY), and the fourth failure marks
it FAILED with retry_count = 4 and no further retry; the 3600 second delay of
min(1800 * 2, 3600) is what attempt four would get if max_retries exceeded 4. -/
theorem C3_ladder_amended :
    (failN {} sampleFourRetries 4).2 = [some 300, some 900, some 1800, none] ∧
    (failN {} sampleFourRetries 3).1.status = ReminderStatus.retry ∧
    (failN {} sampleFourRetries 4).1.status = ReminderStatus.failed ∧
    (failN {} sampleFourRetries 4).1.retry_count = 4 ∧
    calculate_retry_delay {} 4 = 3600 := by
  refine ⟨by decide, by decide, by decide, by decide, by decide⟩

/-! ## Claim C6: the retry delay policy -/

/-- Claim C6: for attempt number n ≥ 1 the computed retry delay is the ladder
entry retry_delays[n-1] while n is inside the ladder, and
min(last ladder entry * 2^(n - ladder length), 3600) beyond it. -/
theorem C6_retry_delay (ds : List Nat) (n : Nat) (h1 : 1 ≤ n) (hne : ds ≠ []) :
    (∀ h : n - 1 < ds.length, calculate_retry_delay ⟨ds⟩ n = ds.get ⟨n - 1, h⟩) ∧
    (ds.length < n →
      calculate_retry_delay ⟨ds⟩ n = Nat.min (ds.getLast hne * 2 ^ (n - ds.length)) 3600) := by
  constructor
  · intro h
    have hn : n ≤ ds.length := by omega
    have hz : n ≠ 0 := by omega
    simp only [calculate_retry_delay, if_pos hn, if_neg hz]
    rw [List.getD_eq_getElem?_getD, List.getElem?_eq_getElem h]
    simp
  · intro h
    have hn : ¬ n ≤ ds.length := by omega
    simp only [calculate_retry_delay, if_neg hn]
    rw [List.getLastD_eq_getLast?, List.getLast?_eq_getLast ds hne]
    simp

/-- Claim C6 witness: under the default ladder, attempt 2 gets the ladder
entry 900 and attempt 4 gets the capped exponential value 3600. -/
theorem C6_witness :
    calculate_retry_delay ⟨[300, 900, 1800]⟩ 2 = 900 ∧
    calculate_retry_delay ⟨[300, 900, 1800]⟩ 4 = 3600 := by
  have h2 := (C6_retry_delay [300, 900, 1800] 2 (by decide) (by decide)).1 (by decide)
  have h4 := (C6_retry_delay [300, 900, 1800] 4 (by decide) (by decide)).2 (by decide)
  constructor
  · simpa using h2
  · simpa using h4

end HighFive

namespace HighFive

/-! ## Claim C5: idempotence of the delivery webhook -/

/-- Claim C5 counterexample: replaying a failed callback for a SENT reminder
with retry budget is not a no-op — each replay increments retry_count (1
after one application, 2 after two), so the final states differ. -/
theorem C5_counterexample :
    (update_delivery_status 0 (update_delivery_status 0 sampleSent ("failed") none none).1
        ("failed") none none).1 ≠
      (update_delivery_status 0 sampleSent ("failed") none none).1 ∧
    (update_delivery_status 0 sampleSent ("failed") none none).1.retry_count = 1 ∧
    (update_delivery_status 0 (update_delivery_status 0 sampleSent ("failed") none none).1
        ("failed") none none).1.retry_count = 2 := by
  exact ⟨by decide, by decide, by decide⟩

/-- Claim C5 (amended): the webhook handler is idempotent for every callback
except one that maps to FAILED while the reminder is not already FAILED and
still has retry budget (that case re-runs _schedule_retry and increments
retry_count on every replay): under the complementary hypothesis, a second
application with the same external id and provider status returns the first
result unchanged, whatever the two call times are. -/
theorem C5_idempotent_amended (now1 now2 : Int) (r : ReminderData) (ps : String)
    (ec em : Option String)
    (h : statusMapping ps ≠ some ReminderStatus.failed ∨ r.status = ReminderStatus.failed ∨
      r.max_retries ≤ r.retry_count) :
    update_delivery_status now2 (update_delivery_status now1 r ps ec em).1 ps ec em =
      ((update_delivery_status now1 r ps ec em).1, true) := by
  rcases statusMapping_cases ps with hm | hm | hm | hm
  · simp [update_delivery_status, hm]
  · by_cases hs : ReminderStatus.delivered = r.status
    · simp [update_delivery_status, hm, hs]
    · simp [update_delivery_status, hm, hs]
  · by_cases hs : ReminderStatus.sent = r.status
    · simp [update_delivery_status, hm, hs]
    · simp [update_delivery_status, hm, hs]
  · rcases h with hc | hf | hb
    · exact absurd hm hc
    · simp [update_delivery_status, hm, hf]
    · by_cases hs : ReminderStatus.failed = r.status
      · simp [update_delivery_status, hm, hs]
      · have hnot : ¬ r.retry_count < r.max_retries := Nat.not_lt.mpr hb
        simp [update_delivery_status, hm, hs, hnot]

/-- Claim C5 witness: replaying a delivered callback on a concrete SENT
reminder is a no-op the second time. -/
theorem C5_witness :
    update_delivery_status 1 (update_delivery_status 0 sampleSent ("delivered") none none).1
        ("delivered") none none =
      ((update_delivery_status 0 sampleSent ("delivered") none none).1, true) :=
  C5_idempotent_amended 0 1 sampleSent ("delivered") none none (Or.inl (by decide))

/-! ## Claim C7: the delivery method BOTH -/

/-- Claim C7 counterexample: delivery_method BOTH, the SMS send succeeds and
the voice send fails permanently (malformed destination), with retry budget
left: the reminder ends in RETRY, not FAILED — the code has no
permanent-error bypass of the retry ladder. -/
theorem C7_counterexample :
    (process_reminder 0 sampleBoth (SendResult.ok ("SM1"))
        (SendResult.err (some ("Numero invalide")))).status = ReminderStatus.retry ∧
    ReminderStatus.retry ≠ ReminderStatus.failed := by
  exact ⟨by decide, by decide⟩

/-- Claim C7 (amended): with delivery_method BOTH the dispatch succeeds only
when both channels succeed (two successful sends yield SENT); when SMS
succeeds and voice fails, the overall dispatch is a failure, error_message
records the voice failure, and the reminder goes to FAILED only when the
retry budget is exhausted — otherwise it is re-scheduled as RETRY. -/
theorem C7_both_amended (now : Int) (r : ReminderData) (sid : String)
    (verr : Option String) (hb : r.delivery_method = DeliveryMethod.both) :
    (process_reminder now r (SendResult.ok sid) (SendResult.err verr)).status ≠
      ReminderStatus.sent ∧
    (process_reminder now r (SendResult.ok sid) (SendResult.err verr)).error_message =
      some (orDefault verr ("Erreur inconnue")) ∧
    (r.retry_count < r.max_retries →
      (process_reminder now r (SendResult.ok sid) (SendResult.err verr)).status =
        ReminderStatus.retry) ∧
    (r.max_retries ≤ r.retry_count →
      (process_reminder now r (SendResult.ok sid) (SendResult.err verr)).status =
        ReminderStatus.failed) ∧
    (∀ sid2,
      (process_reminder now r (SendResult.ok sid) (SendResult.ok sid2)).status =
        ReminderStatus.sent) := by
  refine ⟨?_, ?_, ?_, ?_, ?_⟩
  · simp only [process_reminder, send_sms_reminder, send_voice_reminder, hb]
    split_ifs <;> simp_all [schedule_retry]
  · simp only [process_reminder, send_sms_reminder, send_voice_reminder, hb]
    split_ifs <;> simp_all [schedule_retry]
  · intro hlt
    simp only [process_reminder, send_sms_reminder, send_voice_reminder, hb]
    split_ifs <;> simp_all [schedule_retry]
  · intro hge
    have hnot : ¬ r.retry_count < r.max_retries := Nat.not_lt.mpr hge
    simp only [process_reminder, send_sms_reminder, send_voice_reminder, hb]
    split_ifs <;> simp_all [schedule_retry]
  · intro sid2
    simp [process_reminder, send_sms_reminder, send_voice_reminder, hb]

/-- Claim C7 witness: the amended statement at a concrete BOTH reminder with
budget 3, a successful SMS and a permanently failing voice call. -/
theorem C7_witness :
    (process_reminder 0 sampleBoth (SendResult.ok ("SM1"))
        (SendResult.err (some ("Numero invalide")))).status ≠ ReminderStatus.sent ∧
    (process_reminder 0 sampleBoth (SendResult.ok ("SM1"))
        (SendResult.err (some ("Numero invalide")))).error_message =
      some (orDefault (some ("Numero invalide")) ("Erreur inconnue")) ∧
    (sampleBoth.retry_count < sampleBoth.max_retries →
      (process_reminder 0 sampleBoth (SendResult.ok ("SM1"))
          (SendResult.err (some ("Numero invalide")))).status = ReminderStatus.retry) ∧
    (sampleBoth.max_retries ≤ sampleBoth.retry_count →
      (process_reminder 0 sampleBoth (SendResult.ok ("SM1"))
          (SendResult.err (some ("Numero invalide")))).status = ReminderStatus.failed) ∧
    (∀ sid2,
      (process_reminder 0 sampleBoth (SendResult.ok ("SM1"))
          (SendResult.ok sid2)).status = ReminderStatus.sent) :=
  C7_both_amended 0 sampleBoth ("SM1") (some ("Numero invalide")) rfl

/-! ## Claim C8: queue behaviour when the backing store is unreachable -/

/-- Claim C8 counterexample: with the Redis backend unreachable,
enqueue_scheduled_reminder does not return a soft failure — the except clause
of the method re-raises, so the exception propagates to the caller
(modelled as the error branch). -/
theorem C8_counterexample :
    enqueue_scheduled_reminder false {} 0 sampleReminder 300 =
      Except.error ("redis unreachable") ∧
    isError (enqueue_scheduled_reminder false {} 0 sampleReminder 300) = true := by
  exact ⟨rfl, rfl⟩

/-- Claim C8 (amended): when the queue backing store is unreachable, the three
dequeue operations return a soft failure (the empty list, leaving the queues
untouched), but both enqueue operations re-raise the backend exception to the
caller instead of failing softly. -/
theorem C8_soft_failure_amended (q : QueueState) (now : Int) (limit : Nat)
    (r : ReminderData) (d : Int) :
    get_due_scheduled_reminders false q now limit = ([], q) ∧
    get_due_retry_reminders false q now limit = ([], q) ∧
    get_immediate_reminders false q limit = ([], q) ∧
    isError (enqueue_scheduled_reminder false q now r d) = true ∧
    isError (enqueue_retry_reminder false q now r d) = true := by
  refine ⟨rfl, rfl, rfl, rfl, rfl⟩

/-! ## Claim C9: lock release ignores ownership -/

/-- List.lookup finds nothing once every pair with the key is filtered out. -/
theorem lookup_filter_self (l : List (String × String)) (k : String) :
    (l.filter (fun p => !(decide (p.1 = k)))).lookup k = none := by
  induction l with
  | nil => rfl
  | cons a t ih =>
    obtain ⟨a1, a2⟩ := a
    by_cases h : a1 = k
    · simp [List.filter_cons, h, ih]
    · have hk : (k == a1) = false := beq_eq_false_iff_ne.mpr (Ne.symm h)
      simp [List.filter_cons, h, List.lookup, ih, hk]

/-- Claim C9 counterexample: a lock stored for the acquirer that wrote
identifier 111 is removed by a release that never presented that identifier —
release_lock takes no ownership token at all and deletes unconditionally. -/
theorem C9_counterexample :
    lockHeld.locks.lookup ("locks:scheduler") = some ("111") ∧
    (release_lock lockHeld ("scheduler")).1.locks.lookup ("locks:scheduler") = none ∧
    (release_lock lockHeld ("scheduler")).2 = true := by
  exact ⟨by decide, by decide, by decide⟩

/-- Claim C9 (amended): acquire_lock is a SET NX that stores an identifier
and fails (leaving the table unchanged) while the lock is held, but
release_lock deletes the named lock unconditionally — it never compares the
stored identifier, so any caller releases any held lock; its result only
reports whether the lock existed. -/
theorem C9_lock_amended (st : LockState) (lname ident : String) :
    ((release_lock st lname).1.locks.lookup ("locks:" ++ lname) = none) ∧
    ((release_lock st lname).2 = (st.locks.lookup ("locks:" ++ lname)).isSome) ∧
    (∀ v, st.locks.lookup ("locks:" ++ lname) = some v →
      acquire_lock st lname ident = (st, false)) ∧
    (st.locks.lookup ("locks:" ++ lname) = none →
      (acquire_lock st lname ident).1.locks.lookup ("locks:" ++ lname) = some ident ∧
      (acquire_lock st lname ident).2 = true) := by
  refine ⟨?_, ?_, ?_, ?_⟩
  · exact lookup_filter_self st.locks ("locks:" ++ lname)
  · rfl
  · intro v hv
    unfold acquire_lock
    dsimp only
    rw [hv]
  · intro hnone
    unfold acquire_lock
    dsimp only
    rw [hnone]
    exact ⟨by simp [List.lookup], rfl⟩

end HighFive
